import Mathlib

/-!
Shallow embedding of the `ic-siwe-react-demo-rust` frontend logic:
the `AuthGuard` component (connection / network / address guards and the
render decision) and the `VideoGrid` component (the `fetchVideos` loader,
its re-fetch key, and the pure display helpers `formatViewCount` and
`getVideoThumbnail`).

JavaScript optional string values (`string | undefined`) are modelled as
`Option String`; JS truthiness of such a value (`if (tag) ...`) is
`jsStrTruthy` (undefined and the empty string are falsy).  `x || d` on
strings is `jsOrStr`.  Fallible backend calls (promises that may reject)
are `Except String` values.  `String.toLower`, `startsWith` and
`substring` are re-implemented structurally over `String.data` so that
all definitions evaluate by kernel reduction.
-/

/-- JS truthiness of a `string | undefined` value: `undefined` and `""` are
falsy, every other string is truthy. -/
def jsStrTruthy : Option String → Bool
  | none => false
  | some s => !(s == "")

/-- JS `x || d` for a `string | undefined` value `x` and default `d`. -/
def jsOrStr (x : Option String) (d : String) : String :=
  match x with
  | none => d
  | some s => if s == "" then d else s

/-- `String.prototype.toLowerCase`, character by character. -/
def toLowerStr (s : String) : String := ⟨s.data.map Char.toLower⟩

/-- `String.prototype.startsWith`. -/
def startsWithStr (s p : String) : Bool := p.data.isPrefixOf s.data

/-- `String.prototype.substring(n)`: drop the first `n` characters. -/
def dropStr (s : String) (n : Nat) : String := ⟨s.data.drop n⟩

/-! ### AuthGuard (src/unnamed/part_000 lines 12-45)

The three `useEffect` guards and the render decision of `AuthGuard`.
The supported-network test `isChainIdSupported(chain?.id)` lives in a
module outside the provided sources, so it is kept abstract as a
parameter `supported : Option Nat → Bool` applied to `chain?.id`
(`none` when no chain is active). -/

/-- Effect 1 (lines 19-23): `if (!isConnected) clear()`. -/
def clearOnDisconnect (isConnected : Bool) : Bool :=
  !isConnected

/-- Effect 2 (lines 26-30): `if (!isChainIdSupported(chain?.id)) clear()`. -/
def clearOnUnsupportedChain (supported : Option Nat → Bool) (chainId : Option Nat) : Bool :=
  !(supported chainId)

/-- Effect 3 (lines 33-37):
`if (identityAddress && address && address !== identityAddress) clear()`. -/
def clearOnAddressChange (address identityAddress : Option String) : Bool :=
  jsStrTruthy identityAddress && jsStrTruthy address && !(address == identityAddress)

/-- One effect cycle of `AuthGuard` runs all three guard effects; the session
is cleared when any of them fires. -/
def authEffectCycleClears (supported : Option Nat → Bool) (isConnected : Bool)
    (chainId : Option Nat) (address identityAddress : Option String) : Bool :=
  clearOnDisconnect isConnected
    || clearOnUnsupportedChain supported chainId
    || clearOnAddressChange address identityAddress

/-- What `AuthGuard` renders. -/
inductive AuthRender where
  | loginSurface
  | protectedContent
deriving DecidableEq, Repr

/-- Render decision (lines 40-44):
`if (!isInitializing && (!isConnected || !identity)) return <LoginPage/>;
return <>{children}</>`.  The identity object is always truthy in JS when
present, so `!identity` is `identity.isNone`. -/
def authRender {I : Type} (isInitializing isConnected : Bool) (identity : Option I) :
    AuthRender :=
  if !isInitializing && (!isConnected || identity.isNone) then
    AuthRender.loginSurface
  else
    AuthRender.protectedContent

/-! ### VideoGrid data model -/

/-- A video's `storage_ref` field as it may arrive from the backend: either a
candid-style array of strings or a plain string (`getVideoThumbnail` handles
both shapes; any other shape is mapped to `null` by the source). -/
inductive StorageRefVal where
  | arr (l : List String)
  | str (s : String)
deriving DecidableEq, Repr

/-- The fields of a backend video record that the grid logic reads. -/
structure Video where
  video_id : Option String
  title : String
  timestamp : Int
  storage_ref : Option StorageRefVal
deriving DecidableEq, Repr

/-- A backend call made by the loader. -/
inductive Call where
  | tagQuery (tag : String)
  | searchQuery (query : String) (filterA filterB : List String)
deriving DecidableEq, Repr

/-- The backend actor as the grid uses it: `list_videos_by_tag`,
the optional `search_videos` method, and the nested `actor.actor`
readiness flag checked by the re-fetch effect.  `Except.error` models a
rejected promise. -/
structure Actor where
  hasNested : Bool
  tagResp : String → Except String (List Video)
  searchAvailable : Bool
  searchResp : String → List String → List String → Except String (List Video)

/-- The component-local state of `VideoGrid`:
`useState` hooks `videos`, `loading`, `error`. -/
structure GridState where
  videos : List Video
  loading : Bool
  error : Option String
deriving DecidableEq, Repr

/-- Initial state: `useState([])`, `useState(true)`, `useState(null)`. -/
def initialGridState : GridState := ⟨[], true, none⟩

/-- The loading/error/loaded view of the grid state, read off exactly like the
source's `renderBranch` (line 216): `error` wins, then `loading`, otherwise
the (possibly empty) collection is displayed. -/
inductive FetchState where
  | loading
  | failed (msg : String)
  | loaded (videos : List Video)
deriving DecidableEq, Repr

/-- `renderBranch`-style classification of a grid state. -/
def gridFetchState (st : GridState) : FetchState :=
  match st.error with
  | some m => FetchState.failed m
  | none => if st.loading then FetchState.loading else FetchState.loaded st.videos

/-! ### fetchVideos (lines 67-137) -/

/-- Line 78: `if (tag && tag !== "all" && tag !== "All")` — take the
tag-filtered path exactly when the tag is truthy and is neither sentinel. -/
def useTagQuery (tag : Option String) : Bool :=
  jsStrTruthy tag && !(tag == some "all") && !(tag == some "All")

/-- Lines 75-120: the branch of `fetchVideos` that obtains the raw video list
and the trace of backend calls it makes.  Each backend call appears in the
trace whether it succeeds or rejects; every rejection is caught by an inner
`catch` that degrades the result to `[]`, and a missing `search_videos`
method also degrades to `[]`. -/
def rawFetch (a : Actor) (tag : Option String) : List Video × List Call :=
  if useTagQuery tag then
    let t := toLowerStr (jsOrStr tag "")
    match a.tagResp t with
    | Except.ok l => (l, [Call.tagQuery t])
    | Except.error _ => ([], [Call.tagQuery t])
  else
    if a.searchAvailable then
      match a.searchResp "" [] [] with
      | Except.ok l => (l, [Call.searchQuery "" [] []])
      | Except.error _ => ([], [Call.searchQuery "" [] []])
    else
      ([], [])

/-- Descending-timestamp order used by the sort comparator
`(a, b) => Number(b.timestamp) - Number(a.timestamp)`:
`a` may precede `b` iff `b.timestamp ≤ a.timestamp`. -/
def tsGe (a b : Video) : Prop := b.timestamp ≤ a.timestamp

instance : DecidableRel tsGe :=
  fun a b => inferInstanceAs (Decidable (b.timestamp ≤ a.timestamp))

instance : IsTotal Video tsGe := ⟨fun a b => le_total b.timestamp a.timestamp⟩

instance : IsTrans Video tsGe := ⟨fun _ _ _ h1 h2 => le_trans h2 h1⟩

/-- Lines 122-125: `if (videoList && videoList.length > 0)
videoList.sort((a, b) => Number(b.timestamp) - Number(a.timestamp))`.
`Array.prototype.sort` with a consistent comparator is a stable sort, so it
is modelled by the stable `List.insertionSort`. -/
def sortStep (l : List Video) : List Video :=
  if l.length > 0 then List.insertionSort tsGe l else l

/-- Lines 127-136: how one outcome of the `try` body updates the state.
`Except.ok l` is the normal path (`setVideos(l)` then `finally
setLoading(false)`); `Except.error m` is the outer `catch` (lines 129-132:
`setError('Failed to load videos: ' + m); setVideos([])`, then `finally`). -/
def applyOutcome (st : GridState) (r : Except String (List Video)) : GridState :=
  match r with
  | Except.ok l => { st with videos := l, loading := false }
  | Except.error m =>
      { st with error := some ("Failed to load videos: " ++ m),
                videos := [], loading := false }

/-- `fetchVideos` (lines 67-137): with no actor it only sets `loading` to
`false` and returns (lines 68-72, no backend call, `videos` untouched);
otherwise it runs the branch, sorts, and stores the result.  Every fallible
step is guarded by an inner `catch`, so the body always reaches `setVideos`
with an `Except.ok` outcome; the outer `catch` is `applyOutcome` on an
`Except.error`.  Returns the new state and the trace of backend calls. -/
def fetchVideos (actor : Option Actor) (tag : Option String) (st : GridState) :
    GridState × List Call :=
  match actor with
  | none => ({ st with loading := false }, [])
  | some a =>
      let r := rawFetch a tag
      (applyOutcome st (Except.ok (sortStep r.1)), r.2)

/-! ### Re-fetch effect (lines 140-163) -/

/-- Line 152-153: the composite re-fetch key
`` `${actorId}-${tag || 'all'}` `` with
`actorId = actor.actor ? 'has-nested-actor' : 'no-nested-actor'`. -/
def fetchId (hasNested : Bool) (tag : Option String) : String :=
  (if hasNested then "has-nested-actor" else "no-nested-actor")
    ++ "-" ++ jsOrStr tag "all"

/-- The effect body (lines 143-163): skip unless the actor and its nested
actor are ready; then fetch only when the composite key differs from the one
stored in `prevFetchIdRef`.  Returns the new ref value, the new state and
the backend calls made. -/
def effectStep (actor : Option Actor) (tag : Option String) (prev : Option String)
    (st : GridState) : Option String × GridState × List Call :=
  match actor with
  | none => (prev, st, [])
  | some a =>
      if !a.hasNested then (prev, st, [])
      else
        let fid := fetchId a.hasNested tag
        if prev == some fid then (prev, st, [])
        else
          let st1 := { st with loading := true, error := none }
          let r := fetchVideos (some a) tag st1
          (some fid, r.1, r.2)

/-! ### Display helpers (lines 166-213) -/

/-- `Number.prototype.toFixed(1)` for the exact rational `num / den`
(`den > 0`): round `10 * num / den` to the nearest integer, ties away from
zero, and print one decimal digit.  (`toFixed` is specified on the exact
value of its receiver; the arguments used here are small enough that the
float quotient is not distinguished by the claims.) -/
def toFixed1 (num den : Nat) : String :=
  let n := (num * 20 + den) / (2 * den)
  toString (n / 10) ++ "." ++ toString (n % 10)

/-- `formatViewCount` (lines 166-170). -/
def formatViewCount (count : Nat) : String :=
  if count ≥ 1000000 then toFixed1 count 1000000 ++ "M"
  else if count ≥ 1000 then toFixed1 count 1000 ++ "K"
  else toString count

/-- Lines 194-198: normalise `video.storage_ref` to a `string | null` —
`Array.isArray(x) ? x[0] : typeof x === 'string' ? x : null`. -/
def extractStorageRef : Option StorageRefVal → Option String
  | none => none
  | some (StorageRefVal.arr l) => l.head?
  | some (StorageRefVal.str s) => some s

/-- Line 205: the literal default IPFS gateway domain. -/
def defaultGateway : String := "salmon-worthy-hawk-798.mypinata.cloud"

/-- Lines 192-212: the storage-reference fallback of `getVideoThumbnail`,
with `env` the value of `import.meta.env.VITE_GATEWAY_URL`. -/
def thumbnailFromStorage (env : Option String) (sr : Option StorageRefVal) : String :=
  match extractStorageRef sr with
  | some s =>
      if !(s == "") then
        if startsWithStr s "ipfs:" then
          "https://" ++ jsOrStr env defaultGateway ++ "/ipfs/" ++ dropStr s 5
            ++ "/thumbnail.jpg"
        else "/header.png"
      else "/header.png"
  | none => "/header.png"

/-- `getVideoThumbnail` (lines 182-213). -/
def getVideoThumbnail (env : Option String) (video : Video) : String :=
  match video.video_id with
  | some vid =>
      if !(vid == "") then
        "https://vod-cdn.lp-playback.studio/hls/" ++ vid ++ "/thumbnails/keyframes_0.jpg"
      else thumbnailFromStorage env video.storage_ref
  | none => thumbnailFromStorage env video.storage_ref

/-! ### Fixtures used by the witness theorems -/

/-- A sample video record with a given timestamp. -/
def sampleVideo (n : Int) : Video := ⟨some "vid", "title", n, none⟩

/-- A ready actor whose search endpoint returns videos with timestamps
`[5, 20, 1]` and whose tag endpoint returns an empty list. -/
def okActor : Actor where
  hasNested := true
  tagResp := fun _ => Except.ok []
  searchAvailable := true
  searchResp := fun _ _ _ => Except.ok [sampleVideo 5, sampleVideo 20, sampleVideo 1]

/-- A ready actor whose tag endpoint rejects and whose search endpoint is
absent. -/
def failActor : Actor where
  hasNested := true
  tagResp := fun _ => Except.error "backend rejected"
  searchAvailable := false
  searchResp := fun _ _ _ => Except.error "backend rejected"

/-! ### Claim theorems -/

/-- C1: over one effect cycle of `AuthGuard`, `clear()` is called iff the
connection status is false, or the active network id fails the
supported-network test, or both `identityAddress` and the wallet `address`
are set and differ.  Addresses delivered by the wallet and identity hooks
are never the empty string, which the two hypotheses record. -/
theorem auth_clear_iff (supported : Option Nat → Bool) (isConnected : Bool)
    (chainId : Option Nat) (address identityAddress : Option String)
    (haddr : ∀ s, address = some s → s ≠ "")
    (hid : ∀ s, identityAddress = some s → s ≠ "") :
    authEffectCycleClears supported isConnected chainId address identityAddress = true ↔
      (isConnected = false ∨ supported chainId = false ∨
        (address.isSome = true ∧ identityAddress.isSome = true ∧ address ≠ identityAddress)) := by
  rcases address with _ | a <;> rcases identityAddress with _ | i <;>
    simp [authEffectCycleClears, clearOnDisconnect, clearOnUnsupportedChain,
      clearOnAddressChange, jsStrTruthy, Bool.or_eq_true, Bool.and_eq_true,
      Bool.not_eq_true']
  · have ha : a ≠ "" := haddr a rfl
    have hi : i ≠ "" := hid i rfl
    simp [ha, hi]
    tauto

/-- C1 witness: a concrete signal tuple with both addresses set and
differing. -/
theorem auth_clear_iff_witness :
    authEffectCycleClears (fun _ => true) true (some 1) (some "0xA") (some "0xB") = true ↔
      (true = false ∨ (fun _ : Option Nat => true) (some 1) = false ∨
        ((some "0xA" : Option String).isSome = true ∧
          (some "0xB" : Option String).isSome = true ∧
          (some "0xA" : Option String) ≠ some "0xB")) :=
  auth_clear_iff (fun _ => true) true (some 1) (some "0xA") (some "0xB")
    (fun s h => by injection h with h2; subst h2; decide)
    (fun s h => by injection h with h2; subst h2; decide)

/-- C2: while identity initialization is in progress `AuthGuard` never shows
the login surface (it falls through to the protected subtree); once
initialization is complete, it shows the login surface iff the wallet is not
connected or no identity is present, and the protected subtree otherwise. -/
theorem authGate_render {I : Type} (isInitializing isConnected : Bool)
    (identity : Option I) :
    (isInitializing = true →
      authRender isInitializing isConnected identity = AuthRender.protectedContent) ∧
    (isInitializing = false →
      (authRender isInitializing isConnected identity = AuthRender.loginSurface ↔
        (isConnected = false ∨ identity = none))) := by
  cases isInitializing <;> cases isConnected <;> cases identity <;>
    simp [authRender]

/-- C2 witness: initialization finished, wallet disconnected, no identity. -/
theorem authGate_render_witness :
    authRender false false (none : Option Nat) = AuthRender.loginSurface ↔
      (false = false ∨ (none : Option Nat) = none) :=
  (authGate_render false false (none : Option Nat)).2 rfl

/-- C3: with a truthy, non-sentinel tag the loader performs exactly one
backend call, the tag-filtered query with the tag lower-cased (and hence no
unfiltered search); with no tag, an empty tag, or a sentinel tag
("all"/"All") and an available search method, it performs exactly one
backend call, the unfiltered search with empty filter arguments (and hence
no tag-filtered query). -/
theorem fetchVideos_tag_dispatch (a : Actor) (st : GridState) :
    (∀ t : String, t ≠ "" → t ≠ "all" → t ≠ "All" →
      (fetchVideos (some a) (some t) st).2 = [Call.tagQuery (toLowerStr t)]) ∧
    (∀ tag : Option String,
      (tag = none ∨ tag = some "" ∨ tag = some "all" ∨ tag = some "All") →
      a.searchAvailable = true →
      (fetchVideos (some a) tag st).2 = [Call.searchQuery "" [] []]) := by
  constructor
  · intro t h0 h1 h2
    have hq : useTagQuery (some t) = true := by
      simp [useTagQuery, jsStrTruthy, Bool.and_eq_true, Bool.not_eq_true']
      exact ⟨⟨h0, h1⟩, h2⟩
    have hor : jsOrStr (some t) "" = t := by
      simp [jsOrStr, h0]
    simp only [fetchVideos, rawFetch, hq, if_true, hor]
    cases h : a.tagResp (toLowerStr t) <;> simp [h]
  · intro tag htag hs
    have hq : useTagQuery tag = false := by
      rcases htag with rfl | rfl | rfl | rfl <;> decide
    simp only [fetchVideos, rawFetch, hq, Bool.false_eq_true, if_false, hs, if_true]
    cases h : a.searchResp "" [] [] <;> simp [h]

/-- C3 witness: tag "Comedy" yields one tag query with "comedy"; no tag
yields one unfiltered search. -/
theorem fetchVideos_tag_dispatch_witness :
    (fetchVideos (some okActor) (some "Comedy") initialGridState).2 =
      [Call.tagQuery (toLowerStr "Comedy")] ∧
    (fetchVideos (some okActor) none initialGridState).2 =
      [Call.searchQuery "" [] []] ∧
    toLowerStr "Comedy" = "comedy" :=
  ⟨(fetchVideos_tag_dispatch okActor initialGridState).1 "Comedy"
      (by decide) (by decide) (by decide),
   (fetchVideos_tag_dispatch okActor initialGridState).2 none (Or.inl rfl) rfl,
   by decide⟩

/-- C4: a rejected tag query, a rejected unfiltered search, or a missing
search method all leave the loader in `Loaded([])`, never `Failed`; the
loader itself never changes the `error` field, and the outer catch
(`applyOutcome` on an `Except.error`) is the only producer of the
`Failed(message)` state. -/
theorem fetchVideos_error_policy :
    (∀ (a : Actor) (st : GridState) (t e : String), st.error = none →
      t ≠ "" → t ≠ "all" → t ≠ "All" →
      a.tagResp (toLowerStr t) = Except.error e →
      gridFetchState (fetchVideos (some a) (some t) st).1 = FetchState.loaded []) ∧
    (∀ (a : Actor) (st : GridState) (tag : Option String), st.error = none →
      (tag = none ∨ tag = some "" ∨ tag = some "all" ∨ tag = some "All") →
      (a.searchAvailable = false ∨ ∃ e, a.searchResp "" [] [] = Except.error e) →
      gridFetchState (fetchVideos (some a) tag st).1 = FetchState.loaded []) ∧
    (∀ (actor : Option Actor) (tag : Option String) (st : GridState),
      (fetchVideos actor tag st).1.error = st.error) ∧
    (∀ (st : GridState) (m : String),
      gridFetchState (applyOutcome st (Except.error m)) =
        FetchState.failed ("Failed to load videos: " ++ m)) := by
  refine ⟨?_, ?_, ?_, ?_⟩
  · intro a st t e hst h0 h1 h2 herr
    have hq : useTagQuery (some t) = true := by
      simp [useTagQuery, jsStrTruthy, Bool.and_eq_true, Bool.not_eq_true']
      exact ⟨⟨h0, h1⟩, h2⟩
    have hor : jsOrStr (some t) "" = t := by
      simp [jsOrStr, h0]
    simp [fetchVideos, rawFetch, hq, hor, herr, sortStep, applyOutcome,
      gridFetchState, hst]
  · intro a st tag hst htag hfail
    have hq : useTagQuery tag = false := by
      rcases htag with rfl | rfl | rfl | rfl <;> decide
    rcases hfail with hna | ⟨e, he⟩
    · simp [fetchVideos, rawFetch, hq, hna, sortStep, applyOutcome,
        gridFetchState, hst]
    · cases hsa : a.searchAvailable <;>
        simp [fetchVideos, rawFetch, hq, hsa, he, sortStep, applyOutcome,
          gridFetchState, hst]
  · intro actor tag st
    cases actor <;> rfl
  · intro st m
    rfl

/-- C4 witness: a failing tag query and an absent search method both land in
`Loaded([])`; an uncaught error lands in `Failed`. -/
theorem fetchVideos_error_policy_witness :
    gridFetchState (fetchVideos (some failActor) (some "Comedy") initialGridState).1 =
      FetchState.loaded [] ∧
    gridFetchState (fetchVideos (some failActor) none initialGridState).1 =
      FetchState.loaded [] ∧
    gridFetchState (applyOutcome initialGridState (Except.error "boom")) =
      FetchState.failed ("Failed to load videos: " ++ "boom") :=
  ⟨fetchVideos_error_policy.1 failActor initialGridState "Comedy" "backend rejected"
      rfl (by decide) (by decide) (by decide) rfl,
   fetchVideos_error_policy.2.1 failActor initialGridState none rfl (Or.inl rfl)
      (Or.inl rfl),
   fetchVideos_error_policy.2.2.2 initialGridState "boom"⟩

/-- C5: whatever raw collection the backend branch produced, the loader
stores a permutation of it sorted descending by timestamp. -/
theorem fetchVideos_sorted (a : Actor) (st : GridState) (tag : Option String)
    (l : List Video) (hraw : (rawFetch a tag).1 = l) :
    ((fetchVideos (some a) tag st).1.videos).Perm l ∧
    List.Sorted tsGe ((fetchVideos (some a) tag st).1.videos) := by
  have hv : (fetchVideos (some a) tag st).1.videos = sortStep l := by
    simp [fetchVideos, applyOutcome, hraw]
  rw [hv]
  unfold sortStep
  split
  · exact ⟨List.perm_insertionSort tsGe l, List.sorted_insertionSort tsGe l⟩
  · next h =>
    have hl : l = [] := by
      cases l with
      | nil => rfl
      | cons x xs => exact absurd (by simp) h
    subst hl
    exact ⟨List.Perm.refl _, List.sorted_nil⟩

/-- C5 witness: backend timestamps `[5, 20, 1]` come out in order
`[20, 5, 1]`. -/
theorem fetchVideos_sorted_witness :
    ((fetchVideos (some okActor) none initialGridState).1.videos).Perm
      [sampleVideo 5, sampleVideo 20, sampleVideo 1] ∧
    List.Sorted tsGe ((fetchVideos (some okActor) none initialGridState).1.videos) ∧
    (fetchVideos (some okActor) none initialGridState).1.videos =
      [sampleVideo 20, sampleVideo 5, sampleVideo 1] :=
  ⟨(fetchVideos_sorted okActor initialGridState none
      [sampleVideo 5, sampleVideo 20, sampleVideo 1] rfl).1,
   (fetchVideos_sorted okActor initialGridState none
      [sampleVideo 5, sampleVideo 20, sampleVideo 1] rfl).2,
   by decide⟩

/-- C6: with no backend client the loader makes no backend call, only drops
the loading flag, and — from the state in which the component starts, with
an empty collection and no error — it is left in `Loaded([])`. -/
theorem fetchVideos_no_actor (tag : Option String) (st : GridState) :
    fetchVideos none tag st = ({ st with loading := false }, []) ∧
    (st.videos = [] → st.error = none →
      gridFetchState (fetchVideos none tag st).1 = FetchState.loaded [] ∧
      (fetchVideos none tag st).2 = []) := by
  refine ⟨rfl, fun hv he => ⟨?_, rfl⟩⟩
  simp [fetchVideos, gridFetchState, he, hv]

/-- C6 witness: the initial component state with no actor. -/
theorem fetchVideos_no_actor_witness :
    gridFetchState (fetchVideos none none initialGridState).1 = FetchState.loaded [] ∧
    (fetchVideos none none initialGridState).2 = [] :=
  (fetchVideos_no_actor none initialGridState).2 rfl rfl

/-- C7: thumbnail priority — a truthy video id always wins with the hosted
playback URL regardless of the storage reference; otherwise an extracted
storage string starting with "ipfs:" yields the gateway URL (configured
domain, or the literal default when the environment variable is unset);
otherwise the static fallback path. -/
theorem getVideoThumbnail_priority (env : Option String) (v : Video) :
    (∀ vid, v.video_id = some vid → vid ≠ "" →
      getVideoThumbnail env v =
        "https://vod-cdn.lp-playback.studio/hls/" ++ vid ++ "/thumbnails/keyframes_0.jpg") ∧
    (v.video_id = none → ∀ s, extractStorageRef v.storage_ref = some s →
      startsWithStr s "ipfs:" = true →
      getVideoThumbnail env v =
        "https://" ++ jsOrStr env defaultGateway ++ "/ipfs/" ++ dropStr s 5
          ++ "/thumbnail.jpg") ∧
    (v.video_id = none →
      (∀ s, extractStorageRef v.storage_ref = some s → startsWithStr s "ipfs:" = false) →
      getVideoThumbnail env v = "/header.png") ∧
    jsOrStr none defaultGateway = "salmon-worthy-hawk-798.mypinata.cloud" := by
  refine ⟨?_, ?_, ?_, rfl⟩
  · intro vid hv hne
    simp [getVideoThumbnail, hv, hne]
  · intro hv s hs hpre
    have hne : s ≠ "" := by
      rintro rfl
      rw [show startsWithStr "" "ipfs:" = false from by decide] at hpre
      exact absurd hpre (by simp)
    simp [getVideoThumbnail, hv, thumbnailFromStorage, hs, hne, hpre]
  · intro hv hnone
    cases hsr : extractStorageRef v.storage_ref with
    | none => simp [getVideoThumbnail, hv, thumbnailFromStorage, hsr]
    | some s =>
      have hps := hnone s hsr
      simp [getVideoThumbnail, hv, thumbnailFromStorage, hsr, hps]

/-- C7 witness: the three priority tiers at concrete videos, with the
environment variable unset. -/
theorem getVideoThumbnail_priority_witness :
    getVideoThumbnail none ⟨some "abc123", "t", 0, some (StorageRefVal.str "ipfs:QmX")⟩ =
      "https://vod-cdn.lp-playback.studio/hls/" ++ "abc123"
        ++ "/thumbnails/keyframes_0.jpg" ∧
    getVideoThumbnail none ⟨none, "t", 0, some (StorageRefVal.str "ipfs:QmX")⟩ =
      "https://" ++ jsOrStr none defaultGateway ++ "/ipfs/" ++ dropStr "ipfs:QmX" 5
        ++ "/thumbnail.jpg" ∧
    getVideoThumbnail none ⟨none, "t", 0, some (StorageRefVal.str "https://x")⟩ =
      "/header.png" :=
  ⟨(getVideoThumbnail_priority none _).1 "abc123" rfl (by decide),
   (getVideoThumbnail_priority none _).2.1 rfl "ipfs:QmX" rfl (by decide),
   (getVideoThumbnail_priority none _).2.2.1 rfl
     (by
       intro s h
       simp [extractStorageRef] at h
       subst h
       decide)⟩

/-- C8: the view-count formatter returns the plain decimal string below
1,000, the one-decimal "K" form between 1,000 and 1,000,000, and the
one-decimal "M" form from 1,000,000 up. -/
theorem formatViewCount_spec (c : Nat) :
    (c < 1000 → formatViewCount c = toString c) ∧
    (1000 ≤ c → c < 1000000 → formatViewCount c = toFixed1 c 1000 ++ "K") ∧
    (1000000 ≤ c → formatViewCount c = toFixed1 c 1000000 ++ "M") := by
  refine ⟨fun h => ?_, fun h1 h2 => ?_, fun h => ?_⟩
  · have e1 : ¬ c ≥ 1000000 := by omega
    have e2 : ¬ c ≥ 1000 := by omega
    simp [formatViewCount, e1, e2]
  · have e1 : ¬ c ≥ 1000000 := by omega
    simp [formatViewCount, e1, h1]
  · simp [formatViewCount, h]

/-- C8 witness: 999 → "999", 1500 → "1.5K", 2500000 → "2.5M". -/
theorem formatViewCount_spec_witness :
    formatViewCount 999 = "999" ∧ formatViewCount 1500 = "1.5K" ∧
    formatViewCount 2500000 = "2.5M" :=
  ⟨((formatViewCount_spec 999).1 (by decide)).trans (by decide),
   ((formatViewCount_spec 1500).2.1 (by decide) (by decide)).trans (by decide),
   ((formatViewCount_spec 2500000).2.2 (by decide)).trans (by decide)⟩

/-- C9: the re-fetch key sends no tag, the empty tag and "all" to the same
composite key, so the effect skips the fetch when the stored key already
matches; "All" produces a distinct key, so the effect does run a new fetch —
even though "All" still takes the unfiltered-search path. -/
theorem fetchKey_collapse (b : Bool) (a : Actor) (st : GridState) :
    (fetchId b none = fetchId b (some "all") ∧
      fetchId b (some "") = fetchId b (some "all")) ∧
    fetchId b (some "All") ≠ fetchId b (some "all") ∧
    (∀ tag tag' : Option String, a.hasNested = true →
      fetchId true tag = fetchId true tag' →
      effectStep (some a) tag (some (fetchId true tag')) st =
        (some (fetchId true tag'), st, [])) ∧
    (a.hasNested = true →
      effectStep (some a) (some "All") (some (fetchId true (some "all"))) st =
        (some (fetchId true (some "All")),
          (fetchVideos (some a) (some "All") { st with loading := true, error := none }).1,
          (fetchVideos (some a) (some "All") { st with loading := true, error := none }).2) ∧
      useTagQuery (some "All") = false) := by
  refine ⟨⟨?_, ?_⟩, ?_, ?_, fun hn => ⟨?_, by decide⟩⟩
  · cases b <;> decide
  · cases b <;> decide
  · cases b <;> decide
  · intro tag tag' hn heq
    simp [effectStep, hn, heq]
  · simp [effectStep, hn,
      show (some (fetchId true (some "all")) == some (fetchId true (some "All"))) = false
        from by decide]

/-- C9 witness: the empty tag reuses the stored key; "All" triggers a fetch
after "all". -/
theorem fetchKey_collapse_witness :
    effectStep (some okActor) none (some (fetchId true (some ""))) initialGridState =
      (some (fetchId true (some "")), initialGridState, []) ∧
    effectStep (some okActor) (some "All") (some (fetchId true (some "all")))
        initialGridState =
      (some (fetchId true (some "All")),
        (fetchVideos (some okActor) (some "All")
          { initialGridState with loading := true, error := none }).1,
        (fetchVideos (some okActor) (some "All")
          { initialGridState with loading := true, error := none }).2) :=
  ⟨(fetchKey_collapse true okActor initialGridState).2.2.1 none (some "") rfl (by decide),
   ((fetchKey_collapse true okActor initialGridState).2.2.2 rfl).1⟩

/-- C10: whenever an outcome of the fetch body puts the grid in the
`Failed` state (starting from a clean error field, as every effect-initiated
fetch does), the stored video collection is the empty list. -/
theorem failed_state_resets_videos (st : GridState) (r : Except String (List Video))
    (m : String) (hst : st.error = none)
    (hfail : gridFetchState (applyOutcome st r) = FetchState.failed m) :
    (applyOutcome st r).videos = [] := by
  cases r with
  | ok l =>
    simp [applyOutcome, gridFetchState, hst] at hfail
  | error e =>
    simp [applyOutcome]

/-- C10 witness: an uncaught error outcome over the initial state. -/
theorem failed_state_resets_videos_witness :
    (applyOutcome initialGridState (Except.error "boom")).videos = [] :=
  failed_state_resets_videos initialGridState (Except.error "boom")
    ("Failed to load videos: " ++ "boom") rfl (by decide)
